import Mathlib

/-!
Shallow embedding of the devplan-backend pipeline services:

* `SpeechToTextMoodAnalysisService` (src/unnamed/part_012): `analyzeAudio`,
  the ElevenLabs / Google AI provider chain with retries, the confidence
  gate (`applyNeutralFallback`) and the total-failure neutral result
  (`createNeutralMoodAnalysis`).
* `TemplateSelectorService` (src/src/services/storage.ts): `suggestTemplate`,
  `applySelectionLogic`, `validateTemplateId`, `getFallbackTemplateId`.
* `videoGenerationService` (src/src/services/videoGenerationService.ts):
  `generateAvatarVideo`, the D-ID/JOGG provider loop and
  `uploadVideoToStorage` retry recursion.

Numeric scores are modelled as rationals (the source only compares and
copies them; no float rounding is relevant to the claims).  External API
calls are modelled by environments that record the outcome of each call
(the i-th attempt against a provider).  JavaScript falsiness of strings is
modelled as equality with `""`, and `null`/absent values as `Option`.
Wall-clock fields (`processingTime`) and opaque passthrough fields
(`providerResponse`, `duration`) are not modelled; no claim mentions them.
-/

namespace DevPlan

/-- One entry of `MoodAnalysis.emotions` ({name, intensity, confidence}). -/
structure Emotion where
  name : String
  intensity : ℚ
  confidence : ℚ
deriving DecidableEq, Repr

/-- The `MoodAnalysis` value object produced by the mood-analysis stage and
consumed by the template selector. -/
structure MoodAnalysis where
  overall_mood : String
  confidence_score : ℚ
  sentiment_score : ℚ
  emotions : List Emotion
  key_themes : List String
  risk_indicators : List String
  recommendations : List String
deriving DecidableEq, Repr

/-- Whether `pat` occurs at the start of `s` (character lists). -/
def chListLeading : List Char → List Char → Bool
  | [], _ => true
  | _ :: _, [] => false
  | a :: as, b :: bs => a == b && chListLeading as bs

/-- Whether `pat` occurs anywhere inside `s` (character lists). -/
def chListContains (pat : List Char) : List Char → Bool
  | [] => chListLeading pat []
  | c :: rest => chListLeading pat (c :: rest) || chListContains pat rest

/-- JavaScript `s.includes(pat)`: substring test. -/
def strContains (s pat : String) : Bool :=
  chListContains pat.toList s.toList

/-- JavaScript `toLowerCase`, character by character (both fixed
vocabularies are ASCII, where the two functions agree). -/
def strToLower (s : String) : String :=
  String.mk (s.toList.map Char.toLower)

/-- Splitting on whitespace runs, the `split(/\s+/)` of the source up to
empty fragments (which never match a non-empty vocabulary word). -/
def splitWhitespaceAux : List Char → List Char → List String
  | [], acc => [String.mk acc.reverse]
  | c :: cs, acc =>
    if c.isWhitespace then String.mk acc.reverse :: splitWhitespaceAux cs []
    else splitWhitespaceAux cs (c :: acc)

/-- The word list of a transcript. -/
def splitWhitespace (s : String) : List String :=
  splitWhitespaceAux s.toList []

/-- `detectLanguage` (part_012 lines 991-1002): Hebrew block wins, then Latin
letters, else unknown. -/
def detectLanguage (text : String) : String :=
  if text.toList.any (fun c => decide (1424 ≤ c.toNat) && decide (c.toNat ≤ 1535)) then "hebrew"
  else if text.toList.any (fun c =>
      (decide ('a' ≤ c) && decide (c ≤ 'z')) || (decide ('A' ≤ c) && decide (c ≤ 'Z'))) then "english"
  else "unknown"

/-- `mapSentimentToScore` (part_012 lines 1007-1014). -/
def mapSentimentToScore (sentiment : String) : ℚ :=
  if sentiment = "positive" then mkRat 8 10
  else if sentiment = "negative" then mkRat (-8) 10
  else 0

/-- `mapGoogleSentimentToMood` (part_012 lines 1019-1023). -/
def mapGoogleSentimentToMood (score : ℚ) : String :=
  if score > mkRat 1 10 then "positive"
  else if score < mkRat (-1) 10 then "negative"
  else "neutral"

/-- Google document sentiment ({score, magnitude}). -/
structure GoogleDocSentiment where
  score : ℚ
  magnitude : ℚ
deriving DecidableEq, Repr

/-- `mapGoogleSentimentToEmotions` (part_012 lines 1028-1040): always pushes
exactly one emotion. -/
def mapGoogleSentimentToEmotions (ds : GoogleDocSentiment) : List Emotion :=
  if ds.score > mkRat 3 10 then [⟨"joy", ds.score, mkRat 8 10⟩]
  else if ds.score < mkRat (-3) 10 then [⟨"sadness", abs ds.score, mkRat 8 10⟩]
  else [⟨"neutral", mkRat 5 10, mkRat 6 10⟩]

/-- The fixed theme vocabulary of `extractKeyThemes` (part_012 line 1049). -/
def commonThemes : List String :=
  ["work", "family", "health", "stress", "happiness", "anxiety", "success", "failure"]

/-- `extractKeyThemes` (part_012 lines 1045-1054): lowercase, split on
whitespace, keep vocabulary entries occurring as substrings of some word,
capped at 3. -/
def extractKeyThemes (text : String) : List String :=
  let words := splitWhitespace (strToLower text)
  (commonThemes.filter (fun theme => words.any (fun w => strContains w theme))).take 3

/-- The fixed risk vocabulary of `detectRiskIndicators` (part_012 line 1062). -/
def riskKeywords : List String :=
  ["suicide", "harm", "danger", "hopeless", "worthless"]

/-- `detectRiskIndicators` (part_012 lines 1059-1068): case-insensitive
substring match over the whole transcript, no cap. -/
def detectRiskIndicators (text : String) : List String :=
  riskKeywords.filter (fun kw => strContains (strToLower text) kw)

/-- `generateRecommendations` (part_012 lines 1073-1092): per-mood script,
capped at 3; the `emotions` argument is accepted but unused, as in the
source. -/
def generateRecommendations (mood : String) (emotions : List Emotion) : List String :=
  let _ := emotions
  (if mood = "positive" then
    ["Continue with current positive practices", "Share your positive experiences with others"]
  else if mood = "negative" then
    ["Consider speaking with a mental health professional",
     "Practice self-care and stress management techniques"]
  else if mood = "neutral" then
    ["Explore activities that bring you joy", "Consider setting new goals or challenges"]
  else []).take 3

/-- `applyNeutralFallback` (part_012 lines 1097-1106): spread of the input
with mood fields replaced; `key_themes` and `risk_indicators` are carried
over unchanged. -/
def applyNeutralFallback (moodAnalysis : MoodAnalysis) : MoodAnalysis :=
  { moodAnalysis with
    overall_mood := "neutral"
    confidence_score := mkRat 5 10
    emotions := [⟨"neutral", mkRat 5 10, mkRat 5 10⟩]
    sentiment_score := 0
    recommendations := ["Consider re-recording with clearer audio",
                        "Try speaking more slowly and clearly"] }

/-- `createNeutralMoodAnalysis` (part_012 lines 1111-1121). -/
def createNeutralMoodAnalysis : MoodAnalysis :=
  { overall_mood := "neutral"
    confidence_score := 0
    emotions := [⟨"neutral", mkRat 5 10, 0⟩]
    sentiment_score := 0
    key_themes := []
    risk_indicators := []
    recommendations := ["Unable to analyze audio. Please try re-recording with clearer audio."] }

/-- `ElevenLabsTranscriptionResponse` ({text, confidence}). -/
structure ElevenLabsTranscription where
  text : String
  confidence : ℚ
deriving DecidableEq, Repr

/-- One entry of the ElevenLabs sentiment `emotions` array. -/
structure ElevenLabsEmotion where
  name : String
  intensity : ℚ
deriving DecidableEq, Repr

/-- `ElevenLabsSentimentResponse` ({sentiment, confidence, emotions}). -/
structure ElevenLabsSentiment where
  sentiment : String
  confidence : ℚ
  emotions : List ElevenLabsEmotion
deriving DecidableEq, Repr

/-- Environment for one ElevenLabs attempt: the parsed transcription and
sentiment responses, `none` when the corresponding API call failed (the
source helper returns `null` on any thrown error or non-ok response). -/
structure ElevenLabsAttempt where
  transcription : Option ElevenLabsTranscription
  sentiment : Option ElevenLabsSentiment
deriving DecidableEq, Repr

/-- The `{transcript, moodAnalysis, confidence}` record produced by a
successful provider attempt. -/
structure PartialResult where
  transcript : String
  moodAnalysis : MoodAnalysis
  confidence : ℚ
deriving DecidableEq, Repr

/-- The `MoodAnalysis` built on the ElevenLabs success path
(part_012 lines 749-765).  Note the provider emotions are mapped 1-1 with
no placeholder insertion. -/
def elevenLabsMoodAnalysis (t : ElevenLabsTranscription) (s : ElevenLabsSentiment) : MoodAnalysis :=
  let mapped := s.emotions.map (fun e => Emotion.mk e.name e.intensity s.confidence)
  { overall_mood := s.sentiment
    confidence_score := s.confidence
    emotions := mapped
    sentiment_score := mapSentimentToScore s.sentiment
    key_themes := extractKeyThemes t.text
    risk_indicators := detectRiskIndicators t.text
    recommendations := generateRecommendations s.sentiment mapped }

/-- Body of one ElevenLabs loop iteration (part_012 lines 732-771): fails
when transcription is missing or its text falsy, or sentiment is missing. -/
def elevenLabsAttemptOutcome (a : ElevenLabsAttempt) : Option PartialResult :=
  match a.transcription with
  | none => none
  | some t =>
    if t.text = "" then none
    else
      match a.sentiment with
      | none => none
      | some s => some ⟨t.text, elevenLabsMoodAnalysis t s, t.confidence⟩

/-- One Google speech alternative ({transcript, confidence}). -/
structure GoogleAlternative where
  transcript : String
  confidence : ℚ
deriving DecidableEq, Repr

/-- One Google speech result ({alternatives}). -/
structure GoogleSpeechResult where
  alternatives : List GoogleAlternative
deriving DecidableEq, Repr

/-- `GoogleAITranscriptionResponse` ({results}). -/
structure GoogleTranscription where
  results : List GoogleSpeechResult
deriving DecidableEq, Repr

/-- `GoogleAISentimentResponse` ({documentSentiment}; `sentences` unused by
the service). -/
structure GoogleSentiment where
  documentSentiment : GoogleDocSentiment
deriving DecidableEq, Repr

/-- Environment for one Google AI attempt. -/
structure GoogleAttempt where
  transcription : Option GoogleTranscription
  sentiment : Option GoogleSentiment
deriving DecidableEq, Repr

/-- The joined transcript (part_012 lines 809-812):
`results.map(r => r.alternatives[0]?.transcript).filter(Boolean).join(' ')`. -/
def googleJoinedTranscript (g : GoogleTranscription) : String :=
  String.intercalate " "
    ((g.results.map (fun r => ((r.alternatives.head?).map (fun a => a.transcript)).getD "")).filter
      (fun s => s ≠ ""))

/-- Body of one Google loop iteration (part_012 lines 800-844). -/
def googleAttemptOutcome (a : GoogleAttempt) : Option PartialResult :=
  match a.transcription with
  | none => none
  | some tr =>
    if tr.results.isEmpty then none
    else
      let transcript := googleJoinedTranscript tr
      if transcript = "" then none
      else
        match a.sentiment with
        | none => none
        | some s =>
          let ds := s.documentSentiment
          let mood := mapGoogleSentimentToMood ds.score
          let emos := mapGoogleSentimentToEmotions ds
          let ma : MoodAnalysis :=
            { overall_mood := mood
              confidence_score := abs ds.score
              emotions := emos
              sentiment_score := ds.score
              key_themes := extractKeyThemes transcript
              risk_indicators := detectRiskIndicators transcript
              recommendations := generateRecommendations mood emos }
          let rawConf := (((tr.results.head?).bind (fun r => r.alternatives.head?)).map
            (fun al => al.confidence)).getD 0
          some ⟨transcript, ma, if rawConf = 0 then mkRat 5 10 else rawConf⟩

/-- `maxRetries` (part_012 line 639). -/
def maxRetries : Nat := 2

/-- `retryDelayMs` (part_012 line 640). -/
def retryDelayMs : Nat := 1000

/-- The provider retry loop `for attempt in [0..maxRetries]` (part_012
lines 731-780), instrumented: returns the result, the number of attempts
executed, and the backoff delays slept between consecutive attempts
(`retryDelayMs * 2^attempt` after a failed attempt that is not the last).
`fuel` is the number of attempts still allowed; `attempt` the current
0-based index. -/
def retryTraceAux (outcome : Nat → Option PartialResult) (delayMs : Nat) :
    Nat → Nat → Option PartialResult × Nat × List Nat
  | 0, _ => (none, 0, [])
  | fuel + 1, attempt =>
    match outcome attempt with
    | some r => (some r, 1, [])
    | none =>
      if fuel = 0 then (none, 1, [])
      else
        let rest := retryTraceAux outcome delayMs fuel (attempt + 1)
        (rest.1, rest.2.1 + 1, delayMs * 2 ^ attempt :: rest.2.2)

/-- An `ElevenLabsAttempt` in which both API calls failed. -/
def failElAttempt : ElevenLabsAttempt := ⟨none, none⟩

/-- A `GoogleAttempt` in which both API calls failed. -/
def failGAttempt : GoogleAttempt := ⟨none, none⟩

/-- Environment of one `analyzeAudio` run: key configuration and the
outcome of every per-attempt provider interaction (attempts beyond the
list fail). -/
structure AudioEnv where
  elevenLabsKey : Bool
  googleKey : Bool
  elAttempts : List ElevenLabsAttempt
  gAttempts : List GoogleAttempt

/-- `tryElevenLabsAnalysis` (part_012 lines 721-783) with its attempt/delay
trace: a missing API key returns `null` before the loop (zero attempts). -/
def tryElevenLabsTrace (env : AudioEnv) : Option PartialResult × Nat × List Nat :=
  if env.elevenLabsKey then
    retryTraceAux (fun i => elevenLabsAttemptOutcome (env.elAttempts.getD i failElAttempt))
      retryDelayMs (maxRetries + 1) 0
  else (none, 0, [])

/-- Result projection of `tryElevenLabsTrace`. -/
def tryElevenLabsAnalysis (env : AudioEnv) : Option PartialResult :=
  (tryElevenLabsTrace env).1

/-- `tryGoogleAIAnalysis` (part_012 lines 788-856) with its attempt/delay
trace. -/
def tryGoogleTrace (env : AudioEnv) : Option PartialResult × Nat × List Nat :=
  if env.googleKey then
    retryTraceAux (fun i => googleAttemptOutcome (env.gAttempts.getD i failGAttempt))
      retryDelayMs (maxRetries + 1) 0
  else (none, 0, [])

/-- Result projection of `tryGoogleTrace`. -/
def tryGoogleAIAnalysis (env : AudioEnv) : Option PartialResult :=
  (tryGoogleTrace env).1

/-- The provider chain of `analyzeAudio` (part_012 lines 652-664): primary
result, else Google with `fallbackUsed := true`. -/
def chainResult (env : AudioEnv) : Option PartialResult × Bool :=
  match tryElevenLabsAnalysis env with
  | some r => (some r, false)
  | none => (tryGoogleAIAnalysis env, true)

/-- The `metadata` record of `AnalysisResult`. -/
structure AnalysisMetadata where
  retryCount : Nat
  fallbackUsed : Bool
  neutralFallbackApplied : Bool
  languageOverride : Bool
deriving DecidableEq, Repr

/-- `AnalysisResult` (part_012 lines 623-636); `processingTime` (wall
clock) is not modelled. -/
structure AnalysisResult where
  transcript : String
  language : String
  moodAnalysis : MoodAnalysis
  confidence : ℚ
  apiUsed : String
  metadata : AnalysisMetadata
deriving DecidableEq, Repr

/-- `analyzeAudio` (part_012 lines 645-716).  The catch-all branch (total
provider exhaustion) produces the fixed neutral result; otherwise the
language is detected, the override flag computed, and the confidence gate
applied below 0.6.  `retryCount` is declared in the source but never
incremented, hence constantly 0. -/
def analyzeAudio (env : AudioEnv) (originalLanguage : Option String) : AnalysisResult :=
  let cr := chainResult env
  match cr.1 with
  | none =>
    { transcript := ""
      language := "unknown"
      moodAnalysis := createNeutralMoodAnalysis
      confidence := 0
      apiUsed := "fallback"
      metadata := ⟨0, true, true, false⟩ }
  | some r =>
    let detected := detectLanguage r.transcript
    let langOv :=
      match originalLanguage with
      | some ol => decide (ol ≠ "" ∧ ol ≠ "unknown" ∧ detected ≠ ol)
      | none => false
    { transcript := r.transcript
      language := detected
      moodAnalysis :=
        if r.confidence < mkRat 6 10 then applyNeutralFallback r.moodAnalysis else r.moodAnalysis
      confidence := r.confidence
      apiUsed := if cr.2 then "google" else "elevenlabs"
      metadata := ⟨0, cr.2, decide (r.confidence < mkRat 6 10), langOv⟩ }

/-- `TemplateSuggestion` (storage.ts lines 283-288). -/
structure TemplateSuggestion where
  templateId : String
  confidence : ℚ
  reasoning : String
  fallbackUsed : Bool
deriving DecidableEq, Repr

/-- `Template` (storage.ts lines 290-304); the optional `metadata` bag is
not modelled: none of the functions under analysis read it. -/
structure Template where
  id : String
  name : String
  description : String
  category : String
  avatar_url : String
  voice_id : String
  is_active : Bool
deriving DecidableEq, Repr

/-- `defaultTemplateId` (storage.ts line 307). -/
def defaultTemplateId : String := "default-therapist"

/-- The factors record built by `extractSelectionFactors`
(storage.ts lines 349-362). -/
structure SelectionFactors where
  overallMood : String
  confidenceScore : ℚ
  sentimentScore : ℚ
  primaryEmotion : String
  intensityLevel : String
  riskIndicators : Nat
  keyThemes : List String
deriving DecidableEq, Repr

/-- `getPrimaryEmotion` (storage.ts lines 367-378): highest-intensity entry
via `reduce`, keeping the earlier entry on ties; "neutral" for an empty
list. -/
def getPrimaryEmotion (emotions : List Emotion) : String :=
  match emotions with
  | [] => "neutral"
  | e :: rest =>
    (rest.foldl (fun prev current => if current.intensity > prev.intensity then current else prev)
      e).name

/-- `calculateIntensityLevel` (storage.ts lines 383-389). -/
def calculateIntensityLevel (moodAnalysis : MoodAnalysis) : String :=
  let avgIntensity := (moodAnalysis.confidence_score + abs moodAnalysis.sentiment_score) / 2
  if avgIntensity < mkRat 3 10 then "low"
  else if avgIntensity < mkRat 7 10 then "medium"
  else "high"

/-- `extractSelectionFactors` (storage.ts lines 349-362). -/
def extractSelectionFactors (moodAnalysis : MoodAnalysis) : SelectionFactors :=
  { overallMood := moodAnalysis.overall_mood
    confidenceScore := moodAnalysis.confidence_score
    sentimentScore := moodAnalysis.sentiment_score
    primaryEmotion := getPrimaryEmotion moodAnalysis.emotions
    intensityLevel := calculateIntensityLevel moodAnalysis
    riskIndicators := moodAnalysis.risk_indicators.length
    keyThemes := moodAnalysis.key_themes }

/-- `applySelectionLogic` (storage.ts lines 394-462): the ordered rule
table, first match wins, `fallbackUsed := false` on every branch. -/
def applySelectionLogic (factors : SelectionFactors) : TemplateSuggestion :=
  if factors.riskIndicators > 0 then
    ⟨"crisis-support-therapist", mkRat 95 100,
      "Risk indicators detected - using crisis support template", false⟩
  else if factors.overallMood = "positive" ∧ factors.sentimentScore > mkRat 6 10 ∧
      factors.primaryEmotion ∈ ["joy", "excitement", "happiness"] then
    ⟨"motivational-coach", mkRat 85 100,
      "High positive sentiment with joy - using motivational coach template", false⟩
  else if factors.overallMood = "negative" ∧ factors.sentimentScore < mkRat (-6) 10 ∧
      factors.primaryEmotion ∈ ["sadness", "anxiety", "stress"] then
    ⟨"empathetic-therapist", mkRat 90 100,
      "High negative sentiment with distress - using empathetic therapist template", false⟩
  else if factors.overallMood = "negative" ∧ factors.sentimentScore < mkRat (-2) 10 then
    ⟨"supportive-counselor", mkRat 80 100,
      "Moderate negative sentiment - using supportive counselor template", false⟩
  else if factors.overallMood = "neutral" ∧ factors.intensityLevel = "low" then
    ⟨"life-coach", mkRat 75 100,
      "Neutral mood with low intensity - using life coach template", false⟩
  else if factors.keyThemes.any (fun theme => theme ∈ ["work", "career", "professional"]) then
    ⟨"career-counselor", mkRat 85 100,
      "Work-related themes detected - using career counselor template", false⟩
  else if factors.keyThemes.any (fun theme => theme ∈ ["family", "relationship", "marriage"]) then
    ⟨"family-therapist", mkRat 85 100,
      "Family-related themes detected - using family therapist template", false⟩
  else if factors.keyThemes.any (fun theme => theme ∈ ["health", "wellness", "fitness"]) then
    ⟨"wellness-coach", mkRat 80 100,
      "Health-related themes detected - using wellness coach template", false⟩
  else
    ⟨"general-therapist", mkRat 70 100,
      "General mood profile - using general therapist template", false⟩

/-- `suggestTemplate` (storage.ts lines 312-344).  A `null`/`undefined`
argument (modelled `none`) makes the body throw before any factor is read;
the catch returns the fixed default suggestion.  For a present argument
the body is total, so no other input reaches the catch. -/
def suggestTemplate (moodAnalysis : Option MoodAnalysis) : TemplateSuggestion :=
  match moodAnalysis with
  | none =>
    ⟨defaultTemplateId, 0, "Default template used due to analysis error", true⟩
  | some m => applySelectionLogic (extractSelectionFactors m)

/-- `validateTemplateId` (storage.ts lines 467-483): the guard
`if (!templateId || !availableTemplates) return false` makes a falsy
(empty) id fail regardless of the list; a `null` list cannot arise in the
`List` model. -/
def validateTemplateId (templateId : String) (availableTemplates : List Template) : Bool :=
  if templateId = "" then false
  else availableTemplates.any (fun t => t.id == templateId && t.is_active)

/-- `getFallbackTemplateId` (storage.ts lines 488-507). -/
def getFallbackTemplateId (availableTemplates : List Template) : String :=
  match availableTemplates.find? (fun t => t.is_active && t.category == "general") with
  | some generalTemplate => generalTemplate.id
  | none =>
    match availableTemplates.find? (fun t => t.is_active) with
    | some firstActiveTemplate => firstActiveTemplate.id
    | none => defaultTemplateId

/-- Outcome of one provider video-generation call: `success u` models a
resolved HTTP call whose mapped `videoUrl` is `u` (`""` when the response
carried no URL, the JS `undefined` case); `fail m` models a thrown error
with message `m`. -/
inductive ProviderCall where
  | success (videoUrl : String)
  | fail (msg : String)
deriving DecidableEq, Repr

/-- Outcome of one storage-upload attempt (download + uploadBuffer):
`ok url` is the returned blob-store URL, `err m` a thrown error. -/
inductive UploadOutcome where
  | ok (url : String)
  | err (msg : String)
deriving DecidableEq, Repr

/-- The mutable locals of `generateAvatarVideo`
(videoGenerationService.ts lines 101-106). -/
structure LoopState where
  provider : String
  videoUrl : String
  errorMessage : Option String
  status : String
deriving DecidableEq, Repr

/-- `VideoGenerationResult` (videoGenerationService.ts lines 15-22);
`duration` and `providerResponse` (never populated / opaque passthrough)
are not modelled. -/
structure VideoGenerationResult where
  videoUrl : String
  provider : String
  status : String
  errorMessage : Option String
deriving DecidableEq, Repr

/-- `STORAGE_RETRY_LIMIT` (videoGenerationService.ts line 29). -/
def STORAGE_RETRY_LIMIT : Nat := 3

/-- `PROVIDER_RETRY_LIMIT` (videoGenerationService.ts line 30). -/
def PROVIDER_RETRY_LIMIT : Nat := 2

/-- Environment of one `generateAvatarVideo` run: `did i` / `jogg i` are
the outcomes of the provider calls issued in loop iteration `i`, and
`uploads i` the outcome of the i-th `uploadVideoToStorage` attempt. -/
structure VideoEnv where
  did : Nat → ProviderCall
  jogg : Nat → ProviderCall
  uploads : Nat → UploadOutcome

/-- `uploadVideoToStorage` (videoGenerationService.ts lines 76-92),
instrumented with the attempt count.  `fuel = STORAGE_RETRY_LIMIT - retry`
encodes the guard `retry < STORAGE_RETRY_LIMIT`: on a failed attempt with
fuel left the recursion continues at `retry + 1`, otherwise the error
propagates. -/
def uploadLoopTraceAux (uploads : Nat → UploadOutcome) :
    Nat → Nat → Except String String × Nat
  | fuel, retry =>
    match uploads retry with
    | UploadOutcome.ok url => (Except.ok url, 1)
    | UploadOutcome.err msg =>
      match fuel with
      | 0 => (Except.error msg, 1)
      | f + 1 =>
        let rest := uploadLoopTraceAux uploads f (retry + 1)
        (rest.1, rest.2 + 1)

/-- The full upload retry trace, starting at `retry = 0`. -/
def uploadTrace (uploads : Nat → UploadOutcome) : Except String String × Nat :=
  uploadLoopTraceAux uploads STORAGE_RETRY_LIMIT 0

/-- Result projection of `uploadTrace`. -/
def uploadVideoToStorage (uploads : Nat → UploadOutcome) : Except String String :=
  (uploadTrace uploads).1

/-- The inner JOGG fallback (videoGenerationService.ts lines 121-135):
`provider` is set to JOGG before the call; an empty returned URL raises
`JOGG API did not return a video URL` which the inner catch records. -/
def joggStep (jogg : Nat → ProviderCall) (iter : Nat) (st : LoopState) :
    LoopState ⊕ LoopState :=
  let st := { st with provider := "JOGG" }
  match jogg iter with
  | ProviderCall.success u =>
    let st := { st with videoUrl := u }
    if u = "" then
      Sum.inr { st with errorMessage := some "JOGG API did not return a video URL",
                        status := "failed" }
    else Sum.inl { st with status := "processing" }
  | ProviderCall.fail m =>
    Sum.inr { st with errorMessage := some m, status := "failed" }

/-- One iteration of the provider loop (videoGenerationService.ts lines
109-137): D-ID first; a thrown call or an empty URL (the throw at line
116) falls through to JOGG.  `Sum.inl` is a `break`, `Sum.inr` continues. -/
def didStep (did jogg : Nat → ProviderCall) (iter : Nat) (st : LoopState) :
    LoopState ⊕ LoopState :=
  match did iter with
  | ProviderCall.success u =>
    let st := { st with provider := "D-ID", videoUrl := u }
    if u = "" then joggStep jogg iter st
    else Sum.inl { st with status := "processing" }
  | ProviderCall.fail _ => joggStep jogg iter st

/-- The bounded provider loop, `fuel` iterations remaining. -/
def runProviderLoop (did jogg : Nat → ProviderCall) : Nat → Nat → LoopState → LoopState
  | _, 0, st => st
  | iter, fuel + 1, st =>
    match didStep did jogg iter st with
    | Sum.inl st => st
    | Sum.inr st => runProviderLoop did jogg (iter + 1) fuel st

/-- The loop state after the provider loop of `generateAvatarVideo`. -/
def finalLoopState (env : VideoEnv) : LoopState :=
  runProviderLoop env.did env.jogg 0 PROVIDER_RETRY_LIMIT ⟨"D-ID", "", none, "failed"⟩

/-- JavaScript `errorMessage || default`: `null`/`undefined` and the empty
string both yield the default. -/
def jsOrElse (o : Option String) (d : String) : String :=
  match o with
  | some m => if m = "" then d else m
  | none => d

/-- `generateAvatarVideo` (videoGenerationService.ts lines 94-167): the
provider loop, the empty-URL check, the storage upload with its own
retries, and the three return shapes. -/
def generateAvatarVideo (env : VideoEnv) : VideoGenerationResult :=
  let st := finalLoopState env
  if st.videoUrl = "" then
    { videoUrl := ""
      provider := st.provider
      status := "failed"
      errorMessage := some (jsOrElse st.errorMessage "Both video providers failed to generate video.") }
  else
    match uploadVideoToStorage env.uploads with
    | Except.ok storageUrl =>
      { videoUrl := storageUrl
        provider := st.provider
        status := "completed"
        errorMessage := st.errorMessage }
    | Except.error m =>
      { videoUrl := ""
        provider := st.provider
        status := "failed"
        errorMessage := some m }

/-! Concrete environments used by the witness theorems. -/

/-- ElevenLabs succeeds on the first attempt with transcription confidence
1/2 (below the 0.6 gate). -/
def envC1 : AudioEnv :=
  { elevenLabsKey := true, googleKey := false,
    elAttempts := [⟨some ⟨"hello world", mkRat 5 10⟩, some ⟨"positive", mkRat 9 10, [⟨"joy", mkRat 8 10⟩]⟩⟩],
    gAttempts := [] }

/-- The partial result the chain produces on `envC1`. -/
def rC1 : PartialResult :=
  ⟨"hello world",
    elevenLabsMoodAnalysis ⟨"hello world", mkRat 5 10⟩ ⟨"positive", mkRat 9 10, [⟨"joy", mkRat 8 10⟩]⟩,
    mkRat 5 10⟩

/-- Neither provider key configured: total provider exhaustion. -/
def envC2 : AudioEnv := ⟨false, false, [], []⟩

/-- ElevenLabs succeeds with high confidence but an empty provider
emotions array. -/
def envC3 : AudioEnv :=
  { elevenLabsKey := true, googleKey := false,
    elAttempts := [⟨some ⟨"hello", mkRat 9 10⟩, some ⟨"positive", mkRat 9 10, []⟩⟩],
    gAttempts := [] }

/-- A positive-sentiment profile that nevertheless carries a risk
indicator. -/
def mRisk : MoodAnalysis :=
  ⟨"positive", mkRat 8 10, mkRat 7 10, [⟨"joy", mkRat 9 10, mkRat 8 10⟩], ["happiness"],
    ["self-harm"], []⟩

/-- An active template whose id is the empty string. -/
def tmplEmptyId : Template := ⟨"", "Empty", "empty id", "general", "", "", true⟩

/-- An ordinary active general-category template. -/
def tmplGeneral : Template :=
  ⟨"general-therapist", "General Therapist", "general", "general", "", "voice1", true⟩

/-- An inactive template. -/
def tmplInactive : Template :=
  ⟨"inactive-template", "Inactive", "inactive", "test", "", "", false⟩

/-- An active template outside the "general" category. -/
def tmplEmpathetic : Template :=
  ⟨"empathetic-therapist", "Empathetic Therapist", "emotional support", "emotional", "", "voice2",
    true⟩

/-- D-ID resolves with no media URL, JOGG returns a URL, upload succeeds. -/
def envV1 : VideoEnv :=
  ⟨fun _ => ProviderCall.success "", fun _ => ProviderCall.success "https://jogg.ai/v.mp4",
   fun _ => UploadOutcome.ok "https://storage.example.com/video.mp4"⟩

/-- D-ID succeeds, every storage upload attempt fails. -/
def envV3 : VideoEnv :=
  ⟨fun _ => ProviderCall.success "https://d-id.com/v.mp4", fun _ => ProviderCall.fail "x",
   fun _ => UploadOutcome.err "upload refused"⟩

/-- ElevenLabs key configured but every attempt fails; Google key absent. -/
def envC7 : AudioEnv := ⟨true, false, [], []⟩

/-- The partial result the chain produces on `envC3`. -/
def rC3 : PartialResult :=
  ⟨"hello", elevenLabsMoodAnalysis ⟨"hello", mkRat 9 10⟩ ⟨"positive", mkRat 9 10, []⟩, mkRat 9 10⟩

/-! Helper lemmas shared between claim theorems. -/

/-- A non-empty risk-indicator list selects the crisis rule, the first row
of the rule table. -/
theorem crisis_of_risk (m : MoodAnalysis) (h : m.risk_indicators ≠ []) :
    suggestTemplate (some m) =
      ⟨"crisis-support-therapist", mkRat 95 100,
        "Risk indicators detected - using crisis support template", false⟩ := by
  have hpos : 0 < m.risk_indicators.length := List.length_pos.mpr h
  simp [suggestTemplate, applySelectionLogic, extractSelectionFactors, hpos]

/-- The retry loop executes at most `fuel` attempts. -/
theorem retryTraceAux_attempts_le (outcome : Nat → Option PartialResult) (d fuel attempt : Nat) :
    (retryTraceAux outcome d fuel attempt).2.1 ≤ fuel := by
  induction fuel generalizing attempt with
  | zero => simp [retryTraceAux]
  | succ f ih =>
    unfold retryTraceAux
    cases h : outcome attempt with
    | some r => simp
    | none =>
      by_cases hf : f = 0
      · simp [hf]
      · simpa [hf] using Nat.succ_le_succ (ih (attempt + 1))

/-- The delays slept by the retry loop are exactly
`d * 2 ^ (attempt + i)` for consecutive `i`. -/
theorem retryTraceAux_delays (outcome : Nat → Option PartialResult) (d fuel attempt : Nat) :
    (retryTraceAux outcome d fuel attempt).2.2 =
      (List.range (retryTraceAux outcome d fuel attempt).2.2.length).map
        (fun i => d * 2 ^ (attempt + i)) := by
  induction fuel generalizing attempt with
  | zero => simp [retryTraceAux]
  | succ f ih =>
    unfold retryTraceAux
    cases h : outcome attempt with
    | some r => simp
    | none =>
      by_cases hf : f = 0
      · simp [hf]
      · simp only [hf, if_false]
        rw [List.length_cons, List.range_succ_eq_map, List.map_cons, List.map_map]
        refine List.cons_eq_cons.mpr ⟨by simp, ?_⟩
        rw [ih (attempt + 1), List.length_map, List.length_range]
        refine List.map_congr_left (fun i _ => ?_)
        simp only [Function.comp]
        rw [show attempt + 1 + i = attempt + (i + 1) by omega]

/-- The retry loop makes at least one attempt when it has fuel. -/
theorem retryTraceAux_attempts_pos (outcome : Nat → Option PartialResult) (d fuel attempt : Nat)
    (h : 0 < fuel) : 0 < (retryTraceAux outcome d fuel attempt).2.1 := by
  cases fuel with
  | zero => omega
  | succ f =>
    unfold retryTraceAux
    cases ho : outcome attempt with
    | some r => simp
    | none => by_cases hf : f = 0 <;> simp [hf]

/-- The retry loop sleeps one fewer time than it attempts (when it attempts
at all). -/
theorem retryTraceAux_delays_len (outcome : Nat → Option PartialResult) (d fuel attempt : Nat) :
    (retryTraceAux outcome d fuel attempt).2.2.length + 1 = (retryTraceAux outcome d fuel attempt).2.1
      ∨ (retryTraceAux outcome d fuel attempt).2.1 = 0 := by
  induction fuel generalizing attempt with
  | zero => simp [retryTraceAux]
  | succ f ih =>
    unfold retryTraceAux
    cases h : outcome attempt with
    | some r => simp
    | none =>
      by_cases hf : f = 0
      · simp [hf]
      · simp only [hf, if_false]
        rcases ih (attempt + 1) with h' | h'
        · left; simpa using h'
        · have hpos := retryTraceAux_attempts_pos outcome d f (attempt + 1)
            (Nat.pos_of_ne_zero hf)
          omega

/-- Every successful retry-loop result is the outcome of one of the
attempted calls. -/
theorem retryTraceAux_some (outcome : Nat → Option PartialResult) (d fuel attempt : Nat)
    (r : PartialResult) (h : (retryTraceAux outcome d fuel attempt).1 = some r) :
    ∃ i, outcome i = some r := by
  induction fuel generalizing attempt with
  | zero => simp [retryTraceAux] at h
  | succ f ih =>
    unfold retryTraceAux at h
    cases ho : outcome attempt with
    | some r' =>
      rw [ho] at h
      simp at h
      exact ⟨attempt, by rw [ho, h]⟩
    | none =>
      rw [ho] at h
      by_cases hf : f = 0
      · simp [hf] at h
      · simp only [hf, if_false] at h
        exact ih (attempt + 1) h

/-- `mapGoogleSentimentToEmotions` always yields exactly one emotion. -/
theorem mapGoogleSentimentToEmotions_ne_nil (ds : GoogleDocSentiment) :
    mapGoogleSentimentToEmotions ds ≠ [] := by
  unfold mapGoogleSentimentToEmotions
  split
  · simp
  · split <;> simp

/-- Any successful Google attempt carries a non-empty emotions list. -/
theorem googleAttemptOutcome_emotions (a : GoogleAttempt) (r : PartialResult)
    (h : googleAttemptOutcome a = some r) : r.moodAnalysis.emotions ≠ [] := by
  unfold googleAttemptOutcome at h
  cases ht : a.transcription with
  | none => rw [ht] at h; simp at h
  | some tr =>
    rw [ht] at h
    by_cases hres : tr.results.isEmpty
    · simp [hres] at h
    · simp only [hres, if_false] at h
      by_cases htr : googleJoinedTranscript tr = ""
      · simp [htr] at h
      · simp only [htr, if_false] at h
        cases hs : a.sentiment with
        | none => rw [hs] at h; simp at h
        | some s =>
          rw [hs] at h
          simp at h
          subst h
          simpa using mapGoogleSentimentToEmotions_ne_nil s.documentSentiment

/-- Any successful `tryGoogleAIAnalysis` result carries a non-empty
emotions list. -/
theorem tryGoogle_emotions (env : AudioEnv) (r : PartialResult)
    (h : tryGoogleAIAnalysis env = some r) : r.moodAnalysis.emotions ≠ [] := by
  unfold tryGoogleAIAnalysis tryGoogleTrace at h
  by_cases hk : env.googleKey
  · simp only [hk, if_true] at h
    obtain ⟨i, hi⟩ := retryTraceAux_some _ _ _ _ _ h
    exact googleAttemptOutcome_emotions _ _ hi
  · simp [hk] at h

/-- `find?` returns the head of the matching suffix when everything before
it fails the predicate: the "first match" characterisation. -/
theorem find_first_match (p : Template → Bool) :
    ∀ (pre : List Template) (t : Template) (post : List Template),
      (∀ u ∈ pre, p u = false) → p t = true → (pre ++ t :: post).find? p = some t := by
  intro pre
  induction pre with
  | nil =>
    intro t post _ hp
    simp [List.find?_cons, hp]
  | cons u pre ih =>
    intro t post hpre hp
    have hu : p u = false := hpre u (by simp)
    simp only [List.cons_append, List.find?_cons, hu]
    exact ih t post (fun v hv => hpre v (by simp [hv])) hp

/-- The upload retry recursion executes at most `fuel + 1` attempts. -/
theorem uploadLoopTraceAux_le (uploads : Nat → UploadOutcome) (fuel retry : Nat) :
    (uploadLoopTraceAux uploads fuel retry).2 ≤ fuel + 1 := by
  induction fuel generalizing retry with
  | zero => unfold uploadLoopTraceAux; cases uploads retry <;> simp
  | succ f ih =>
    unfold uploadLoopTraceAux
    cases uploads retry with
    | ok url => simp
    | err msg => simpa using Nat.succ_le_succ (ih (retry + 1))

/-- A `break` out of the JOGG fallback carries the JOGG-provided URL. -/
theorem joggStep_break (jogg : Nat → ProviderCall) (iter : Nat) (st st' : LoopState)
    (h : joggStep jogg iter st = Sum.inl st') :
    st'.provider = "JOGG" ∧ st'.videoUrl ≠ "" ∧
      jogg iter = ProviderCall.success st'.videoUrl := by
  unfold joggStep at h
  cases hj : jogg iter with
  | success u =>
    rw [hj] at h
    by_cases hu : u = ""
    · simp [hu] at h
    · simp only [hu, if_false, Sum.inl.injEq] at h
      subst h
      exact ⟨rfl, hu, rfl⟩
  | fail m => rw [hj] at h; simp at h

/-- A continuing JOGG fallback leaves an empty `videoUrl` when it started
empty. -/
theorem joggStep_cont (jogg : Nat → ProviderCall) (iter : Nat) (st st' : LoopState)
    (hst : st.videoUrl = "") (h : joggStep jogg iter st = Sum.inr st') :
    st'.videoUrl = "" := by
  unfold joggStep at h
  cases hj : jogg iter with
  | success u =>
    rw [hj] at h
    by_cases hu : u = ""
    · simp only [hu, if_true, if_pos, Sum.inr.injEq] at h
      subst h
      rfl
    · simp [hu] at h
  | fail m =>
    rw [hj] at h
    simp only [Sum.inr.injEq] at h
    subst h
    exact hst

/-- A `break` out of one loop iteration names the provider that returned
the accepted, non-empty URL. -/
theorem didStep_break (did jogg : Nat → ProviderCall) (iter : Nat) (st st' : LoopState)
    (h : didStep did jogg iter st = Sum.inl st') :
    st'.videoUrl ≠ "" ∧
      ((st'.provider = "D-ID" ∧ did iter = ProviderCall.success st'.videoUrl) ∨
       (st'.provider = "JOGG" ∧ jogg iter = ProviderCall.success st'.videoUrl)) := by
  unfold didStep at h
  cases hd : did iter with
  | success u =>
    rw [hd] at h
    by_cases hu : u = ""
    · simp only [hu, if_true, if_pos] at h
      obtain ⟨hp, hne, hj⟩ := joggStep_break jogg iter _ _ h
      exact ⟨hne, Or.inr ⟨hp, hj⟩⟩
    · simp only [hu, if_false, Sum.inl.injEq] at h
      subst h
      exact ⟨hu, Or.inl ⟨rfl, rfl⟩⟩
  | fail m =>
    rw [hd] at h
    obtain ⟨hp, hne, hj⟩ := joggStep_break jogg iter _ _ h
    exact ⟨hne, Or.inr ⟨hp, hj⟩⟩

/-- A continuing loop iteration leaves an empty `videoUrl` when it started
empty. -/
theorem didStep_cont (did jogg : Nat → ProviderCall) (iter : Nat) (st st' : LoopState)
    (hst : st.videoUrl = "") (h : didStep did jogg iter st = Sum.inr st') :
    st'.videoUrl = "" := by
  unfold didStep at h
  cases hd : did iter with
  | success u =>
    rw [hd] at h
    by_cases hu : u = ""
    · simp only [hu, if_true, if_pos] at h
      exact joggStep_cont jogg iter _ _ rfl h
    · simp [hu] at h
  | fail m =>
    rw [hd] at h
    exact joggStep_cont jogg iter _ _ hst h

/-- Provenance of the provider loop: a non-empty final URL was returned by
the provider the final state names. -/
theorem runProviderLoop_accepted (did jogg : Nat → ProviderCall) (fuel : Nat) :
    ∀ iter st, st.videoUrl = "" →
      (runProviderLoop did jogg iter fuel st).videoUrl ≠ "" →
      ((runProviderLoop did jogg iter fuel st).provider = "D-ID" ∧
        ∃ i, did i = ProviderCall.success (runProviderLoop did jogg iter fuel st).videoUrl) ∨
      ((runProviderLoop did jogg iter fuel st).provider = "JOGG" ∧
        ∃ i, jogg i = ProviderCall.success (runProviderLoop did jogg iter fuel st).videoUrl) := by
  induction fuel with
  | zero => intro iter st hst hne; rw [runProviderLoop] at hne ⊢; exact absurd hst hne
  | succ f ih =>
    intro iter st hst hne
    rw [runProviderLoop] at hne ⊢
    cases hstep : didStep did jogg iter st with
    | inl st' =>
      obtain ⟨hne', hcases⟩ := didStep_break did jogg iter st st' hstep
      rcases hcases with ⟨hp, hd⟩ | ⟨hp, hj⟩
      · exact Or.inl ⟨hp, iter, hd⟩
      · exact Or.inr ⟨hp, iter, hj⟩
    | inr st' =>
      rw [hstep] at hne
      exact ih (iter + 1) st' (didStep_cont did jogg iter st st' hst hstep) hne

/-! Claim theorems. -/

/-- C1: whenever a transcription provider succeeds with numeric confidence
below 0.6, `analyzeAudio` returns a `MoodProfile` with overall_mood
"neutral", confidence_score 0.5, sentiment_score 0, a single neutral
emotion and exactly the two try-again recommendations, while the
transcript still equals the transcribed text and
`metadata.neutralFallbackApplied` is true. -/
theorem C1_confidence_gate (env : AudioEnv) (lang : Option String) (r : PartialResult)
    (h : (chainResult env).1 = some r) (hc : r.confidence < mkRat 6 10) :
    (analyzeAudio env lang).moodAnalysis.overall_mood = "neutral" ∧
    (analyzeAudio env lang).moodAnalysis.confidence_score = mkRat 5 10 ∧
    (analyzeAudio env lang).moodAnalysis.sentiment_score = 0 ∧
    (analyzeAudio env lang).moodAnalysis.emotions = [⟨"neutral", mkRat 5 10, mkRat 5 10⟩] ∧
    (analyzeAudio env lang).moodAnalysis.recommendations =
      ["Consider re-recording with clearer audio", "Try speaking more slowly and clearly"] ∧
    (analyzeAudio env lang).transcript = r.transcript ∧
    (analyzeAudio env lang).metadata.neutralFallbackApplied = true := by
  simp [analyzeAudio, h, hc, applyNeutralFallback]

/-- Witness for C1: ElevenLabs succeeds on `envC1` with confidence 1/2 and
the neutral gate fires while the transcript is preserved. -/
theorem C1_witness :
    (analyzeAudio envC1 none).moodAnalysis.overall_mood = "neutral" ∧
    (analyzeAudio envC1 none).moodAnalysis.confidence_score = mkRat 5 10 ∧
    (analyzeAudio envC1 none).moodAnalysis.sentiment_score = 0 ∧
    (analyzeAudio envC1 none).moodAnalysis.emotions = [⟨"neutral", mkRat 5 10, mkRat 5 10⟩] ∧
    (analyzeAudio envC1 none).moodAnalysis.recommendations =
      ["Consider re-recording with clearer audio", "Try speaking more slowly and clearly"] ∧
    (analyzeAudio envC1 none).transcript = rC1.transcript ∧
    (analyzeAudio envC1 none).metadata.neutralFallbackApplied = true :=
  C1_confidence_gate envC1 none rC1 (by decide) (by decide)

/-- C2: `analyzeAudio` is a total function (it never throws), and when
both provider adapters fail on all attempts it returns the fixed degraded
result: apiUsed "fallback", empty transcript, unknown language,
confidence 0, and the neutral `MoodProfile` of
`createNeutralMoodAnalysis`, with fallbackUsed and neutralFallbackApplied
both true. -/
theorem C2_total_exhaustion (env : AudioEnv) (lang : Option String)
    (hel : tryElevenLabsAnalysis env = none) (hg : tryGoogleAIAnalysis env = none) :
    analyzeAudio env lang =
      { transcript := ""
        language := "unknown"
        moodAnalysis := createNeutralMoodAnalysis
        confidence := 0
        apiUsed := "fallback"
        metadata := ⟨0, true, true, false⟩ } ∧
    createNeutralMoodAnalysis =
      { overall_mood := "neutral"
        confidence_score := 0
        sentiment_score := 0
        emotions := [⟨"neutral", mkRat 5 10, 0⟩]
        key_themes := []
        risk_indicators := []
        recommendations := ["Unable to analyze audio. Please try re-recording with clearer audio."] } := by
  refine ⟨?_, rfl⟩
  simp [analyzeAudio, chainResult, hel, hg]

/-- Witness for C2: with neither API key configured both adapters make no
attempt and the degraded result is returned. -/
theorem C2_witness :
    analyzeAudio envC2 (some "english") =
      { transcript := ""
        language := "unknown"
        moodAnalysis := createNeutralMoodAnalysis
        confidence := 0
        apiUsed := "fallback"
        metadata := ⟨0, true, true, false⟩ } ∧
    createNeutralMoodAnalysis =
      { overall_mood := "neutral"
        confidence_score := 0
        sentiment_score := 0
        emotions := [⟨"neutral", mkRat 5 10, 0⟩]
        key_themes := []
        risk_indicators := []
        recommendations := ["Unable to analyze audio. Please try re-recording with clearer audio."] } :=
  C2_total_exhaustion envC2 (some "english") (by decide) (by decide)

/-- Counterexample to C3: on `envC3` the ElevenLabs adapter succeeds with
confidence 9/10 and an empty provider emotions array, and `analyzeAudio`
returns an empty emotions list — no neutral placeholder stands in on the
primary success path. -/
theorem C3_counterexample : (analyzeAudio envC3 none).moodAnalysis.emotions = [] := by decide

/-- C3 (amended): the emotions list of an `analyzeAudio` result is
non-empty except on the primary (ElevenLabs) success path with
confidence at least 0.6, where it mirrors the provider's emotions array
and is empty exactly when that array was empty. -/
theorem C3_emotions_amended (env : AudioEnv) (lang : Option String) :
    (analyzeAudio env lang).moodAnalysis.emotions ≠ [] ∨
    (∃ r, tryElevenLabsAnalysis env = some r ∧ ¬ r.confidence < mkRat 6 10 ∧
      r.moodAnalysis.emotions = [] ∧ (analyzeAudio env lang).moodAnalysis.emotions = []) := by
  by_cases hemp : (analyzeAudio env lang).moodAnalysis.emotions = []
  · right
    rcases hcr : (chainResult env).1 with _ | r
    · exfalso
      have hval : (analyzeAudio env lang).moodAnalysis.emotions = createNeutralMoodAnalysis.emotions := by
        simp [analyzeAudio, hcr]
      rw [hval] at hemp
      simp [createNeutralMoodAnalysis] at hemp
    · by_cases hconf : r.confidence < mkRat 6 10
      · exfalso
        have hval : (analyzeAudio env lang).moodAnalysis.emotions = [⟨"neutral", mkRat 5 10, mkRat 5 10⟩] := by
          simp [analyzeAudio, hcr, hconf, applyNeutralFallback]
        rw [hval] at hemp
        simp at hemp
      · have hmood : (analyzeAudio env lang).moodAnalysis = r.moodAnalysis := by
          simp [analyzeAudio, hcr, hconf]
        cases hel : tryElevenLabsAnalysis env with
        | some r' =>
          have hsome : (chainResult env).1 = some r' := by simp [chainResult, hel]
          rw [hcr] at hsome
          obtain rfl : r = r' := by injection hsome
          exact ⟨r, rfl, hconf, hmood ▸ hemp, hemp⟩
        | none =>
          exfalso
          have hg : tryGoogleAIAnalysis env = some r := by
            have : (chainResult env).1 = tryGoogleAIAnalysis env := by simp [chainResult, hel]
            rw [hcr] at this
            exact this.symm
          exact tryGoogle_emotions env r hg (hmood ▸ hemp)
  · exact Or.inl hemp

/-- Witness for C3 (amended): on `envC3` the right disjunct holds — the
empty emotions list comes from the high-confidence ElevenLabs path. -/
theorem C3_witness :
    (analyzeAudio envC3 none).moodAnalysis.emotions ≠ [] ∨
    (∃ r, tryElevenLabsAnalysis envC3 = some r ∧ ¬ r.confidence < mkRat 6 10 ∧
      r.moodAnalysis.emotions = [] ∧ (analyzeAudio envC3 none).moodAnalysis.emotions = []) :=
  C3_emotions_amended envC3 none

/-- C4: the rule table is evaluated in priority order with first match
winning: any profile with a non-empty risk_indicators list yields the
crisis-support suggestion with confidence 0.95, regardless of every other
factor. -/
theorem C4_risk_precedence (m : MoodAnalysis) (h : m.risk_indicators ≠ []) :
    suggestTemplate (some m) =
      ⟨"crisis-support-therapist", mkRat 95 100,
        "Risk indicators detected - using crisis support template", false⟩ :=
  crisis_of_risk m h

/-- Witness for C4: a positive, joyful profile with a risk indicator still
selects the crisis template. -/
theorem C4_witness :
    suggestTemplate (some mRisk) =
      ⟨"crisis-support-therapist", mkRat 95 100,
        "Risk indicators detected - using crisis support template", false⟩ :=
  C4_risk_precedence mRisk (by decide)

/-- C8: `suggestTemplate` is total (it never propagates an exception); the
erroring input (a null mood analysis, modelled `none`) returns the fixed
default suggestion with confidence 0 and fallbackUsed true, and no
non-null input ever reaches the fallback path. -/
theorem C8_error_default :
    suggestTemplate none =
      ⟨defaultTemplateId, 0, "Default template used due to analysis error", true⟩ ∧
    ∀ m : MoodAnalysis, (suggestTemplate (some m)).fallbackUsed = false := by
  refine ⟨rfl, fun m => ?_⟩
  show (applySelectionLogic (extractSelectionFactors m)).fallbackUsed = false
  unfold applySelectionLogic
  split_ifs <;> rfl

/-- C10: the confidence-gate fallback replaces only the mood fields —
`key_themes` and `risk_indicators` survive unchanged — so risk indicators
detected in a low-confidence transcript still drive template selection to
the crisis template. -/
theorem C10_frame (m : MoodAnalysis) :
    (applyNeutralFallback m).key_themes = m.key_themes ∧
    (applyNeutralFallback m).risk_indicators = m.risk_indicators ∧
    (m.risk_indicators ≠ [] →
      suggestTemplate (some (applyNeutralFallback m)) =
        ⟨"crisis-support-therapist", mkRat 95 100,
          "Risk indicators detected - using crisis support template", false⟩) :=
  ⟨rfl, rfl, fun h => crisis_of_risk _ h⟩

/-- Witness for C10: the neutral fallback applied to a risky profile keeps
its risk indicator and still selects the crisis template. -/
theorem C10_witness :
    (applyNeutralFallback mRisk).risk_indicators = mRisk.risk_indicators ∧
    suggestTemplate (some (applyNeutralFallback mRisk)) =
      ⟨"crisis-support-therapist", mkRat 95 100,
        "Risk indicators detected - using crisis support template", false⟩ :=
  ⟨(C10_frame mRisk).2.1, (C10_frame mRisk).2.2 (by decide)⟩

/-- C5: an empty primary (D-ID) media URL is treated as failure and the
secondary provider (JOGG) is consulted; and whenever a provider success is
followed by a successful storage upload, the result is `completed`, names
the provider that produced the accepted media, and carries the blob-store
URL (never the provider's transient URL) as `videoUrl`. -/
theorem C5_provider_fallback_storage_url :
    (∀ env u s, env.did 0 = ProviderCall.success "" → env.jogg 0 = ProviderCall.success u →
      u ≠ "" → env.uploads 0 = UploadOutcome.ok s →
      generateAvatarVideo env = ⟨s, "JOGG", "completed", none⟩) ∧
    (∀ env s, uploadVideoToStorage env.uploads = Except.ok s →
      (finalLoopState env).videoUrl ≠ "" →
      (generateAvatarVideo env).status = "completed" ∧
      (generateAvatarVideo env).videoUrl = s ∧
      (generateAvatarVideo env).provider = (finalLoopState env).provider ∧
      (((finalLoopState env).provider = "D-ID" ∧
          ∃ i, env.did i = ProviderCall.success (finalLoopState env).videoUrl) ∨
       ((finalLoopState env).provider = "JOGG" ∧
          ∃ i, env.jogg i = ProviderCall.success (finalLoopState env).videoUrl))) := by
  constructor
  · intro env u s hd hj hu hup
    have hstep0 : didStep env.did env.jogg 0 ⟨"D-ID", "", none, "failed"⟩ =
        Sum.inl ⟨"JOGG", u, none, "processing"⟩ := by
      unfold didStep joggStep
      rw [hd, hj]
      simp [hu]
    have hloop : finalLoopState env = ⟨"JOGG", u, none, "processing"⟩ := by
      unfold finalLoopState
      rw [show (PROVIDER_RETRY_LIMIT : Nat) = 1 + 1 from rfl, runProviderLoop, hstep0]
    have hupl : uploadVideoToStorage env.uploads = Except.ok s := by
      unfold uploadVideoToStorage uploadTrace
      rw [uploadLoopTraceAux, hup]
    simp [generateAvatarVideo, hloop, hu, hupl]
  · intro env s hup hne
    refine ⟨?_, ?_, ?_, ?_⟩
    · simp [generateAvatarVideo, hne, hup]
    · simp [generateAvatarVideo, hne, hup]
    · simp [generateAvatarVideo, hne, hup]
    · exact runProviderLoop_accepted env.did env.jogg PROVIDER_RETRY_LIMIT 0 _ rfl hne

/-- Witness for C5: on `envV1` the primary returns no URL, the secondary's
URL is accepted, and the final result carries the storage URL. -/
theorem C5_witness :
    generateAvatarVideo envV1 =
      ⟨"https://storage.example.com/video.mp4", "JOGG", "completed", none⟩ :=
  C5_provider_fallback_storage_url.1 envV1 "https://jogg.ai/v.mp4"
    "https://storage.example.com/video.mp4" rfl rfl (by decide) rfl

/-- C6: `uploadVideoToStorage` makes at most 4 attempts (3 retries after
the first try, via linear recursion); when attempts 0..3 all fail the
trace is exactly 4 attempts ending in the last error; and a provider
success followed by total upload failure makes `generateAvatarVideo`
return `failed` with an empty `videoUrl` and the error message, without
throwing. -/
theorem C6_storage_retry_exhaustion :
    (∀ uploads : Nat → UploadOutcome, (uploadTrace uploads).2 ≤ 4) ∧
    (∀ (uploads : Nat → UploadOutcome) m0 m1 m2 m3,
      uploads 0 = UploadOutcome.err m0 → uploads 1 = UploadOutcome.err m1 →
      uploads 2 = UploadOutcome.err m2 → uploads 3 = UploadOutcome.err m3 →
      uploadTrace uploads = (Except.error m3, 4)) ∧
    (∀ env m, (finalLoopState env).videoUrl ≠ "" →
      uploadVideoToStorage env.uploads = Except.error m →
      generateAvatarVideo env = ⟨"", (finalLoopState env).provider, "failed", some m⟩) := by
  refine ⟨?_, ?_, ?_⟩
  · intro uploads
    exact uploadLoopTraceAux_le uploads STORAGE_RETRY_LIMIT 0
  · intro uploads m0 m1 m2 m3 h0 h1 h2 h3
    have e1 : uploadLoopTraceAux uploads 0 3 = (Except.error m3, 1) := by
      rw [uploadLoopTraceAux, h3]
    have e2 : uploadLoopTraceAux uploads 1 2 = (Except.error m3, 2) := by
      rw [uploadLoopTraceAux, h2]
      show ((uploadLoopTraceAux uploads 0 3).1, (uploadLoopTraceAux uploads 0 3).2 + 1) =
        (Except.error m3, 2)
      rw [e1]
    have e3 : uploadLoopTraceAux uploads 2 1 = (Except.error m3, 3) := by
      rw [uploadLoopTraceAux, h1]
      show ((uploadLoopTraceAux uploads 1 2).1, (uploadLoopTraceAux uploads 1 2).2 + 1) =
        (Except.error m3, 3)
      rw [e2]
    show uploadLoopTraceAux uploads 3 0 = (Except.error m3, 4)
    rw [uploadLoopTraceAux, h0]
    show ((uploadLoopTraceAux uploads 2 1).1, (uploadLoopTraceAux uploads 2 1).2 + 1) =
      (Except.error m3, 4)
    rw [e3]
  · intro env m hne hm
    simp [generateAvatarVideo, hne, hm]

/-- Witness for C6: on `envV3` the provider succeeds, all four upload
attempts fail, and generation ends `failed` with empty URL. -/
theorem C6_witness :
    uploadTrace envV3.uploads = (Except.error "upload refused", 4) ∧
    generateAvatarVideo envV3 =
      ⟨"", (finalLoopState envV3).provider, "failed", some "upload refused"⟩ :=
  ⟨C6_storage_retry_exhaustion.2.1 envV3.uploads "upload refused" "upload refused"
      "upload refused" "upload refused" rfl rfl rfl rfl,
   C6_storage_retry_exhaustion.2.2 envV3 "upload refused" (by decide) rfl⟩

/-- C7: each mood-analysis adapter is attempted at most `maxRetries + 1 = 3`
times with delays `retryDelayMs * 2 ^ attemptIndex` (base 1000 ms) between
consecutive attempts; a missing API key means zero attempts for that
adapter; and when the primary (ElevenLabs) adapter succeeds the result
does not depend on the Google adapter at all (the secondary is consulted
only after a primary failure), with `fallbackUsed = false` and
`apiUsed = "elevenlabs"`. -/
theorem C7_chain_policy :
    maxRetries + 1 = 3 ∧ retryDelayMs = 1000 ∧
    (∀ env : AudioEnv, (tryElevenLabsTrace env).2.1 ≤ maxRetries + 1 ∧
      (tryGoogleTrace env).2.1 ≤ maxRetries + 1) ∧
    (∀ env : AudioEnv, env.elevenLabsKey = false → tryElevenLabsTrace env = (none, 0, [])) ∧
    (∀ env : AudioEnv, env.googleKey = false → tryGoogleTrace env = (none, 0, [])) ∧
    (∀ env : AudioEnv,
      (tryElevenLabsTrace env).2.2 =
        (List.range (tryElevenLabsTrace env).2.2.length).map (fun i => retryDelayMs * 2 ^ i) ∧
      (tryGoogleTrace env).2.2 =
        (List.range (tryGoogleTrace env).2.2.length).map (fun i => retryDelayMs * 2 ^ i)) ∧
    (∀ env env2 : AudioEnv, ∀ lang r, tryElevenLabsAnalysis env = some r →
      env2.elevenLabsKey = env.elevenLabsKey → env2.elAttempts = env.elAttempts →
      analyzeAudio env2 lang = analyzeAudio env lang ∧
      (analyzeAudio env lang).metadata.fallbackUsed = false ∧
      (analyzeAudio env lang).apiUsed = "elevenlabs") := by
  refine ⟨rfl, rfl, ?_, ?_, ?_, ?_, ?_⟩
  · intro env
    constructor
    · unfold tryElevenLabsTrace
      by_cases hk : env.elevenLabsKey
      · simp only [hk, if_true]
        exact retryTraceAux_attempts_le _ _ _ _
      · simp [hk]
    · unfold tryGoogleTrace
      by_cases hk : env.googleKey
      · simp only [hk, if_true]
        exact retryTraceAux_attempts_le _ _ _ _
      · simp [hk]
  · intro env hk
    simp [tryElevenLabsTrace, hk]
  · intro env hk
    simp [tryGoogleTrace, hk]
  · intro env
    constructor
    · unfold tryElevenLabsTrace
      by_cases hk : env.elevenLabsKey
      · simp only [hk, if_true]
        simpa using retryTraceAux_delays
          (fun i => elevenLabsAttemptOutcome (env.elAttempts.getD i failElAttempt))
          retryDelayMs (maxRetries + 1) 0
      · simp [hk]
    · unfold tryGoogleTrace
      by_cases hk : env.googleKey
      · simp only [hk, if_true]
        simpa using retryTraceAux_delays
          (fun i => googleAttemptOutcome (env.gAttempts.getD i failGAttempt))
          retryDelayMs (maxRetries + 1) 0
      · simp [hk]
  · intro env env2 lang r hel hkeyeq hatteq
    have htrace : tryElevenLabsTrace env2 = tryElevenLabsTrace env := by
      unfold tryElevenLabsTrace
      rw [hkeyeq, hatteq]
    have hel2 : tryElevenLabsAnalysis env2 = some r := by
      unfold tryElevenLabsAnalysis
      rw [htrace]
      exact hel
    have hcr : chainResult env = (some r, false) := by simp [chainResult, hel]
    have hcr2 : chainResult env2 = (some r, false) := by simp [chainResult, hel2]
    refine ⟨?_, ?_, ?_⟩
    · simp [analyzeAudio, hcr, hcr2]
    · simp [analyzeAudio, hcr]
    · simp [analyzeAudio, hcr]

/-- Witness for C7: the failing but configured ElevenLabs adapter on
`envC7` makes exactly 3 attempts with delays 1000 and 2000 ms, the
unconfigured Google adapter makes zero attempts, and on `envC3` the
primary success keeps apiUsed "elevenlabs" with no fallback. -/
theorem C7_witness :
    tryElevenLabsTrace envC7 = (none, 3, [1000, 2000]) ∧
    tryGoogleTrace envC7 = (none, 0, []) ∧
    (analyzeAudio envC3 none).metadata.fallbackUsed = false ∧
    (analyzeAudio envC3 none).apiUsed = "elevenlabs" :=
  ⟨by decide,
   C7_chain_policy.2.2.2.2.1 envC7 rfl,
   (C7_chain_policy.2.2.2.2.2.2 envC3 envC3 none rC3 (by decide) rfl rfl).2.1,
   (C7_chain_policy.2.2.2.2.2.2 envC3 envC3 none rC3 (by decide) rfl rfl).2.2⟩

/-- Counterexample to C9: the guard `if (!templateId) return false` makes
`validateTemplateId` return false for the empty id even when an active
template with that id exists, so the claimed iff fails at this input. -/
theorem C9_counterexample :
    ¬ ((validateTemplateId "" [tmplEmptyId] = true) ↔
        ∃ t ∈ [tmplEmptyId], t.id = "" ∧ t.is_active = true) := by
  decide

/-- C9 (amended): `validateTemplateId id ts` is true iff the id is
non-empty (JS-truthy) and some active template matches it; it is false on
the empty list for every id.  `getFallbackTemplateId` returns the id of an
active "general"-category template when one exists, else the id of the
**first** active template (every template before it is inactive), else the
hard-coded default id, and returns the default on the empty list. -/
theorem C9_validate_fallback :
    (∀ id ts, validateTemplateId id ts = true ↔
      (id ≠ "" ∧ ∃ t ∈ ts, t.id = id ∧ t.is_active = true)) ∧
    (∀ id, validateTemplateId id [] = false) ∧
    (∀ ts : List Template, (∃ t ∈ ts, t.is_active = true ∧ t.category = "general") →
      ∃ t ∈ ts, t.is_active = true ∧ t.category = "general" ∧ getFallbackTemplateId ts = t.id) ∧
    (∀ ts : List Template, (¬ ∃ t ∈ ts, t.is_active = true ∧ t.category = "general") →
      ∀ (pre : List Template) (t : Template) (post : List Template),
        ts = pre ++ t :: post → (∀ u ∈ pre, u.is_active = false) → t.is_active = true →
        getFallbackTemplateId ts = t.id) ∧
    (∀ ts : List Template, (¬ ∃ t ∈ ts, t.is_active = true) →
      getFallbackTemplateId ts = defaultTemplateId) ∧
    getFallbackTemplateId [] = defaultTemplateId := by
  refine ⟨?_, ?_, ?_, ?_, ?_, rfl⟩
  · intro id ts
    unfold validateTemplateId
    by_cases hid : id = ""
    · simp [hid]
    · simp only [hid, if_false, List.any_eq_true]
      constructor
      · rintro ⟨t, ht, hp⟩
        simp only [Bool.and_eq_true, beq_iff_eq] at hp
        exact ⟨hid, t, ht, hp.1, hp.2⟩
      · rintro ⟨-, t, ht, hid', hact⟩
        exact ⟨t, ht, by simp [hid', hact]⟩
  · intro id
    unfold validateTemplateId
    by_cases hid : id = "" <;> simp [hid]
  · intro ts hex
    cases hfind : ts.find? (fun t => t.is_active && t.category == "general") with
    | some t =>
      have hmem := List.mem_of_find?_eq_some hfind
      have hp := List.find?_some hfind
      simp only [Bool.and_eq_true, beq_iff_eq] at hp
      exact ⟨t, hmem, hp.1, hp.2, by simp [getFallbackTemplateId, hfind]⟩
    | none =>
      exfalso
      obtain ⟨t, ht, hact, hcat⟩ := hex
      have := List.find?_eq_none.mp hfind t ht
      simp [hact, hcat] at this
  · intro ts hnog pre t post hdecomp hpre hact
    have hfind1 : ts.find? (fun t => t.is_active && t.category == "general") = none := by
      rw [List.find?_eq_none]
      intro t ht hp
      simp only [Bool.and_eq_true, beq_iff_eq] at hp
      exact hnog ⟨t, ht, hp.1, hp.2⟩
    have hfind2 : ts.find? (fun u => u.is_active) = some t := by
      rw [hdecomp]
      exact find_first_match _ pre t post hpre hact
    simp [getFallbackTemplateId, hfind1, hfind2]
  · intro ts hnone
    have hfind2 : ts.find? (fun t : Template => t.is_active) = none := by
      rw [List.find?_eq_none]
      intro t ht hp
      exact hnone ⟨t, ht, by simpa using hp⟩
    have hfind1 : ts.find? (fun t => t.is_active && t.category == "general") = none := by
      rw [List.find?_eq_none]
      intro t ht hp
      simp only [Bool.and_eq_true, beq_iff_eq] at hp
      exact hnone ⟨t, ht, hp.1⟩
    simp [getFallbackTemplateId, hfind1, hfind2]

/-- Witness for C9 (amended): a present active template validates, a
catalog whose first active template is non-general falls back to that
first active template's id, and the empty catalog falls back to the
default id. -/
theorem C9_witness :
    validateTemplateId "general-therapist" [tmplGeneral] = true ∧
    getFallbackTemplateId [tmplInactive, tmplEmpathetic] = "empathetic-therapist" ∧
    getFallbackTemplateId [] = defaultTemplateId :=
  ⟨(C9_validate_fallback.1 "general-therapist" [tmplGeneral]).mpr (by decide),
   C9_validate_fallback.2.2.2.1 [tmplInactive, tmplEmpathetic] (by decide)
     [tmplInactive] tmplEmpathetic [] rfl (by decide) rfl,
   C9_validate_fallback.2.2.2.2.2⟩

end DevPlan
